import Mathlib

/-!
Verification of the certificate issuance pipeline of the
coderscup25-attendance-backend repository.

The definitions below are a shallow embedding of the JavaScript source:
* `src/routes/certificateRoutes.js` — certificate store, periodic sweep,
  rate limiter, circuit-breaker handling inside the issuance handler,
  and the download handler;
* `src/utils/certificateGenerator.js` — single-certificate retry logic and
  the team batch renderer;
* `src/server.js` — circuit-breaker initialization.

Machine integers and timestamps are modelled as `Nat` (milliseconds, as
`Date.now()` produces non-negative integers).  PDF buffers are modelled as
`List Nat` (byte lists); their contents are irrelevant to every claim.
External collaborators (the Mongo directory, the PDF engine, the crypto
token generator) are passed in as explicit function parameters, so the
handlers stay pure while keeping the exact control flow of the source.
-/

namespace CodersCup

/-! ### Constants

From `src/routes/certificateRoutes.js` lines 210-211 and 255-256, and
`src/utils/certificateGenerator.js` lines 6-22. -/

/-- `CERTIFICATE_TTL = 1 * 60 * 1000` (certificateRoutes.js line 210). -/
def CERTIFICATE_TTL : Nat := 1 * 60 * 1000

/-- `MAX_CERTIFICATE_STORE_SIZE = 1000` (certificateRoutes.js line 211). -/
def MAX_CERTIFICATE_STORE_SIZE : Nat := 1000

/-- `RATE_LIMIT_WINDOW = 60 * 1000` (certificateRoutes.js line 255). -/
def RATE_LIMIT_WINDOW : Nat := 60 * 1000

/-- `RATE_LIMIT_MAX = 20` (certificateRoutes.js line 256). -/
def RATE_LIMIT_MAX : Nat := 20

/-- `MAX_RETRIES = 3` (certificateGenerator.js line 7), also
`CONFIG.retry.maxAttempts`. -/
def MAX_RETRIES : Nat := 3

/-- `CONFIG.retry.backoffMs = 500` (certificateGenerator.js line 21). -/
def RETRY_BACKOFF_MS : Nat := 500

/-! ### JavaScript `Map` on string keys

`certificateStore` and `requestCounts` are JS `Map`s.  We embed a `Map`
as an association list with unique keys maintained by `jsMapSet`
(update-in-place if present, append otherwise), exactly the observable
behaviour of `Map.set` / `Map.get` / `Map.has`. -/

/-- `Map.get(k)` — the value at the first (unique) matching key. -/
def jsMapGet {β : Type} (m : List (String × β)) (k : String) : Option β :=
  (m.find? (fun e => e.1 == k)).map (fun e => e.2)

/-- `Map.set(k, v)` — overwrite in place if the key exists, else append. -/
def jsMapSet {β : Type} (m : List (String × β)) (k : String) (v : β) :
    List (String × β) :=
  if m.any (fun e => e.1 == k) then
    m.map (fun e => if e.1 == k then (k, v) else e)
  else
    m ++ [(k, v)]

/-! ### Certificate store (certificateRoutes.js lines 208-246, 508-537) -/

/-- One entry of `certificateStore` (certificateRoutes.js lines 425-431). -/
structure StoredCert where
  buffer : List Nat
  name : String
  contentType : String
  filename : String
  expiry : Nat
deriving DecidableEq, Repr

/-- The periodic sweep body (certificateRoutes.js lines 214-246):
first delete every entry with `now > cert.expiry`; then, if the size still
exceeds `MAX_CERTIFICATE_STORE_SIZE`, sort the surviving entries by
ascending `expiry` and delete the `size - MAX` entries with the soonest
expiry.  A JS `Map` has unique keys, so deleting those tokens leaves
exactly the remaining entries; we represent the post-sweep map contents by
dropping the first `size - MAX` elements of the expiry-sorted (stable)
permutation, which has the same entries.  Entry order inside the map never
influences any handler result (keys are unique). -/
def cleanupSweep (now : Nat) (store : List (String × StoredCert)) :
    List (String × StoredCert) :=
  let kept := store.filter fun e => !(now > e.2.expiry)
  if kept.length > MAX_CERTIFICATE_STORE_SIZE then
    (List.insertionSort (fun a b => a.2.expiry ≤ b.2.expiry) kept).drop
      (kept.length - MAX_CERTIFICATE_STORE_SIZE)
  else
    kept

/-- The download handler `router.get("/download/:token")`
(certificateRoutes.js lines 508-537).  The source checks only
`certificateStore.has(token)` and then serves `certificateStore.get(token)`.
It never reads the clock and never compares `expiry` with the current
time, which is why this embedding takes no `now` parameter: the result of
a download is the same at every instant between two sweep runs. -/
def downloadCert (store : List (String × StoredCert)) (token : String) :
    Option StoredCert :=
  match store.find? (fun e => e.1 == token) with
  | none => none
  | some e => some e.2

/-! ### Rate limiter (certificateRoutes.js lines 253-285) -/

/-- One entry of `requestCounts`: `{count, resetAt}`. -/
structure RateRecord where
  count : Nat
  resetAt : Nat
deriving DecidableEq, Repr

/-- Outcome of the `rateLimiter` middleware for one request. -/
inductive RateDecision where
  | admitted
  | limited (retryAfter : Nat)
deriving DecidableEq, Repr

/-- The `rateLimiter` middleware body (certificateRoutes.js lines 259-285)
for one request from `ip` at time `now`:
create the record `{count: 0, resetAt: now + RATE_LIMIT_WINDOW}` when the
ip is unknown or its `resetAt < now`; reject with
`retryAfter = Math.ceil((resetAt - now) / 1000)` when `count >= RATE_LIMIT_MAX`;
otherwise increment `count` and admit.  (When the limiter rejects,
`record.resetAt ≥ now` holds, so the JS subtraction is non-negative and
`Nat` truncated subtraction agrees with it.)  The `none` fallback of the
second lookup is unreachable: the record was just created or kept. -/
def rateLimiter (m : List (String × RateRecord)) (ip : String) (now : Nat) :
    RateDecision × List (String × RateRecord) :=
  let m1 :=
    match jsMapGet m ip with
    | none => jsMapSet m ip { count := 0, resetAt := now + RATE_LIMIT_WINDOW }
    | some r =>
        if r.resetAt < now then
          jsMapSet m ip { count := 0, resetAt := now + RATE_LIMIT_WINDOW }
        else m
  match jsMapGet m1 ip with
  | none => (RateDecision.admitted, m1)
  | some record =>
      if record.count ≥ RATE_LIMIT_MAX then
        (RateDecision.limited ((record.resetAt - now + 999) / 1000), m1)
      else
        (RateDecision.admitted,
          jsMapSet m1 ip { record with count := record.count + 1 })

/-- Sequentially feed a list of request times from one caller through the
rate limiter, returning the decisions in order and the final map. -/
def runRateRequests (m : List (String × RateRecord)) (ip : String) :
    List Nat → List RateDecision × List (String × RateRecord)
  | [] => ([], m)
  | t :: ts =>
      let s := rateLimiter m ip t
      let rest := runRateRequests s.2 ip ts
      (s.1 :: rest.1, rest.2)

/-! ### Renderer retry logic (certificateGenerator.js lines 200-358)

`generateCertificateBuffer(name, competition, teamName, retryCount)` can
fail in two distinct places, each with its own retry branch:
* the `doc.on("error")` handler (lines 258-280): recurse immediately with
  `retryCount + 1` while `retryCount < CONFIG.retry.maxAttempts`, else
  reject with `Error("Certificate generation failed after 3 attempts: …")`;
* the synchronous `catch` (lines 337-356): recurse after a
  `setTimeout` of `CONFIG.retry.backoffMs * 2 ** retryCount` milliseconds
  while `retryCount < CONFIG.retry.maxAttempts`, else reject with the raw
  last error.

What each individual attempt does (PDFKit composition) is impure I/O, so
one attempt is abstracted as an oracle `outcome : Nat → AttemptResult`
giving, for the attempt with a given `retryCount`, either a produced
buffer, a stream-stage error, or a synchronous-stage error. -/

/-- Result of one rendering attempt at a given `retryCount`. -/
inductive AttemptResult where
  | ok (buffer : List Nat)
  | streamError (msg : String)
  | syncError (msg : String)
deriving DecidableEq, Repr

/-- `true` iff the attempt did not produce a buffer. -/
def AttemptResult.isFailure : AttemptResult → Bool
  | .ok _ => false
  | .streamError _ => true
  | .syncError _ => true

/-- The rejection message of the `doc.on("error")` exhaustion branch
(certificateGenerator.js lines 274-279). -/
def streamFailMsg (msg : String) : String :=
  "Certificate generation failed after " ++ toString MAX_RETRIES
    ++ " attempts: " ++ msg

/-- Recursion of `generateCertificateBuffer` over the retry counter,
instrumented with the list of attempted `retryCount` values and the list
of backoff delays actually slept (in order).  `fuel` only bounds the
structural recursion; the source's own stopping condition
`retryCount < MAX_RETRIES` is kept verbatim, and the wrapper below supplies
fuel `MAX_RETRIES + 1`, which the stopping condition never exhausts. -/
def genCertAux (outcome : Nat → AttemptResult) :
    Nat → Nat → (Except String (List Nat) × List Nat × List Nat)
  | 0, rc =>
      match outcome rc with
      | .ok b => (Except.ok b, [rc], [])
      | .streamError m => (Except.error (streamFailMsg m), [rc], [])
      | .syncError m => (Except.error m, [rc], [])
  | fuel + 1, rc =>
      match outcome rc with
      | .ok b => (Except.ok b, [rc], [])
      | .streamError m =>
          if rc < MAX_RETRIES then
            let r := genCertAux outcome fuel (rc + 1)
            (r.1, rc :: r.2.1, r.2.2)
          else (Except.error (streamFailMsg m), [rc], [])
      | .syncError m =>
          if rc < MAX_RETRIES then
            let r := genCertAux outcome fuel (rc + 1)
            (r.1, rc :: r.2.1, (RETRY_BACKOFF_MS * 2 ^ rc) :: r.2.2)
          else (Except.error m, [rc], [])

/-- `generateCertificateBuffer` with the internal counter `retryCount`
(default `0` at every call site).  Returns
`(settled promise, attempted retryCounts, backoff delays slept)`. -/
def generateCertificateBuffer (outcome : Nat → AttemptResult)
    (retryCount : Nat) : Except String (List Nat) × List Nat × List Nat :=
  genCertAux outcome (MAX_RETRIES + 1) retryCount

/-! ### Batch renderer (certificateGenerator.js lines 367-416) -/

/-- One successful render: `{name, buffer}`. -/
structure Artifact where
  name : String
  buffer : List Nat
deriving DecidableEq, Repr

/-- `true` iff the render of member `m` rejects (lands in the loop's
`catch`, pushing onto the `errors` array). -/
def renderFails (renderOne : String → Except String (List Nat))
    (m : String) : Bool :=
  match renderOne m with
  | Except.ok _ => false
  | Except.error _ => true

/-- The `{name, buffer}` object pushed onto `certificates` when the render
of member `m` resolves, `none` when it rejects. -/
def renderSuccess (renderOne : String → Except String (List Nat))
    (m : String) : Option Artifact :=
  match renderOne m with
  | Except.ok b => some { name := m, buffer := b }
  | Except.error _ => none

/-- `generateTeamCertificateBuffers(members, competition, teamName)`
(certificateGenerator.js lines 367-416).
`members` is `Option (List String)` — `none` models a non-array argument
(`!Array.isArray(members)`).  Rendering of one member is abstracted as
`renderOne : String → Except String (List Nat)` (the sequential awaits on
`generateCertificateBuffer` settle one at a time, so a pure per-member
oracle captures the loop).  Successes are collected in roster order into
`certificates`; the `errors` array is represented by the sublist of
failing members (the source only ever consults its length).  If every
member failed and there was at least one member, the function throws
`"Certificate generation failed for all team members"` (lines 411-413). -/
def generateTeamCertificateBuffers
    (renderOne : String → Except String (List Nat))
    (members : Option (List String)) : Except String (List Artifact) :=
  match members with
  | none => Except.ok []
  | some ms =>
      if ms.length = 0 then Except.ok []
      else
        let certificates := ms.filterMap (renderSuccess renderOne)
        let errors := ms.filter (renderFails renderOne)
        if errors.length > 0 ∧ errors.length = ms.length then
          Except.error "Certificate generation failed for all team members"
        else
          Except.ok certificates

/-! ### Circuit breaker (server.js lines 13-28, certificateRoutes.js) -/

/-- The `certificate_generator` circuit-breaker object.  Field names are
the source's. -/
structure CircuitBreaker where
  failureCount : Nat
  failureThreshold : Nat
  resetTimeout : Nat
  successThreshold : Nat
  successCount : Nat
  isOpen : Bool
  isHalfOpen : Bool
  resetTime : Nat
  lastAttemptTime : Nat
  totalRequests : Nat
  totalFailures : Nat
  consecutiveFailures : Nat
  consecutiveFailureThreshold : Nat
deriving DecidableEq, Repr

/-- `global.circuitBreakers.set("certificate_generator", {...})` in
`src/server.js` lines 13-28.  (`server.js` runs this before requiring the
route modules, so the weaker fallback object in
`certificateRoutes.js` lines 539-553 is never installed in the server.) -/
def initialCircuitBreaker : CircuitBreaker :=
  { failureCount := 0
    failureThreshold := 10
    resetTimeout := 60000
    successThreshold := 3
    successCount := 0
    isOpen := false
    isHalfOpen := false
    resetTime := 0
    lastAttemptTime := 0
    totalRequests := 0
    totalFailures := 0
    consecutiveFailures := 0
    consecutiveFailureThreshold := 5 }

/-! ### Issuance endpoint (certificateRoutes.js lines 288-505) -/

/-- A `CodersCupAttendance` document, restricted to the fields the
issuance handler reads.  Optional member-name fields model JS
truthiness: the handler pushes `team.memN_name` only when it is a
non-empty string. -/
structure Team where
  att_code : String
  Team_Name : String
  Competition : String
  consumerNumber : String
  Leader_name : String
  mem1_name : Option String
  mem2_name : Option String
  mem3_name : Option String
  mem4_name : Option String
  attendance : Bool
deriving DecidableEq, Repr

/-- An `Event` document, restricted to the fields the handler reads. -/
structure Event where
  competitionName : String
  start_time : Nat
  end_time : Nat
deriving DecidableEq, Repr

/-- `if (team.memN_name) members.push(team.memN_name)`: append when the
field is a truthy (non-empty) string. -/
def appendTruthy (l : List String) (o : Option String) : List String :=
  match o with
  | none => l
  | some s => if s = "" then l else l ++ [s]

/-- The roster collected at certificateRoutes.js lines 380-384:
`[team.Leader_name]` then `mem1_name` … `mem4_name` when truthy. -/
def teamMembers (t : Team) : List String :=
  appendTruthy (appendTruthy (appendTruthy (appendTruthy
    [t.Leader_name] t.mem1_name) t.mem2_name) t.mem3_name) t.mem4_name

/-- One element of the `downloadTokens` response array
(certificateRoutes.js lines 433-437). -/
structure DownloadDescriptor where
  memberName : String
  memberIndex : Nat
  downloadUrl : String
deriving DecidableEq, Repr

/-- The distinct responses of `router.post("/")`, by exit point. -/
inductive IssueResponse where
  /-- 503 `"Certificate generation temporarily unavailable …"` with
  `retryAfter` (lines 319-323). -/
  | serviceUnavailable (retryAfter : Nat)
  /-- 400 `"Attendance code is required"` (line 333). -/
  | missingCode
  /-- 404 `"Team not found"` (line 343). -/
  | teamNotFound
  /-- 404 `"Event not found"` (line 364). -/
  | eventNotFound
  /-- 400 `"Certificates are only available after the event has ended"`
  (lines 374-376). -/
  | eventNotEnded
  /-- 200 with the `downloadTokens` descriptor list (lines 458-462). -/
  | success (downloads : List DownloadDescriptor)
  /-- 500 `"Error generating certificate"` from the catch block
  (line 503). -/
  | serverError
deriving DecidableEq, Repr

/-- Result of one issuance request: HTTP response plus the new shared
state (breaker and certificate store). -/
structure IssuanceResult where
  response : IssueResponse
  breaker : CircuitBreaker
  store : List (String × StoredCert)
deriving DecidableEq, Repr

/-- `cert.name.replace(/\s+/g, "-")`: each maximal run of whitespace
becomes a single hyphen.  The flag records whether the previous character
was part of a whitespace run. -/
def hyphenAux : Bool → List Char → List Char
  | _, [] => []
  | prevWS, c :: cs =>
      if c.isWhitespace then
        if prevWS then hyphenAux true cs
        else '-' :: hyphenAux true cs
      else c :: hyphenAux false cs

/-- `name.replace(/\s+/g, "-")` on a whole string. -/
def hyphenateName (s : String) : String :=
  String.mk (hyphenAux false s.data)

/-- The stored entry built at certificateRoutes.js lines 425-431. -/
def mkStoredCert (c : Artifact) (now : Nat) : StoredCert :=
  { buffer := c.buffer
    name := c.name
    contentType := "application/pdf"
    filename := hyphenateName c.name ++ "-Certificate.pdf"
    expiry := now + CERTIFICATE_TTL }

/-- The `certificates.map((cert, index) => …)` loop (lines 421-438), store
side: one `certificateStore.set` per artifact.  `freshTokens i` stands for
the `generateSecureToken()` call of iteration `i`. -/
def storeAllCerts (store : List (String × StoredCert)) (certs : List Artifact)
    (freshTokens : Nat → String) (now : Nat) : List (String × StoredCert) :=
  certs.enum.foldl (fun st p => jsMapSet st (freshTokens p.1) (mkStoredCert p.2 now))
    store

/-- The `certificates.map((cert, index) => …)` loop (lines 421-438),
response side: the returned descriptor list. -/
def downloadDescriptors (certs : List Artifact) (freshTokens : Nat → String) :
    List DownloadDescriptor :=
  certs.enum.map fun p =>
    { memberName := p.2.name
      memberIndex := p.1
      downloadUrl := "/api/certificates/download/" ++ freshTokens p.1 }

/-- The `retryAfter` of the open-circuit 503 rejection
(certificateRoutes.js lines 312-322):
`Math.ceil((resetTime - now) / 1000)`, replaced by `30` when not
positive.  (On this path `now ≤ resetTime`, so `Nat` truncated
subtraction agrees with the JS subtraction.) -/
def breaker503RetryAfter (resetTime now : Nat) : Nat :=
  let ra0 := (resetTime - now + 999) / 1000
  if ra0 > 0 then ra0 else 30

/-- The issuance handler `router.post("/")` (certificateRoutes.js lines
288-505), entered after the `rateLimiter` middleware admitted the request.
Parameters:
* `now` — the request's clock reading (`Date.now()`);
* `cb0`, `store` — the shared breaker and certificate store;
* `att_code` — `req.body.att_code` (`none` = absent; the empty string is
  falsy in JS and also hits the `"Attendance code is required"` branch);
* `findTeam`, `findEvent` — the Mongo lookups
  `CodersCupAttendance.findOne({att_code})` and
  `Event.findOne({competitionName})`;
* `renderOne` — per-member rendering used by the batch renderer;
* `freshTokens` — the secure-token generator, by store-loop index.

Faithful control-flow notes: `circuitBreaker.totalRequests++` and
`lastAttemptTime` update happen before the open-circuit check; the
open-circuit rejection computes
`retryAfter = Math.ceil((resetTime - now)/1000)` and substitutes `30`
when that is not positive; the attendance-flag check (lines 346-357 of
the source) is commented out and therefore absent here; the verify step
rejects when `now <= event.end_time`; failure accounting and the two trip
conditions mirror the catch block (lines 463-504); half-open success
accounting mirrors lines 405-418.  The `metrics` object is a write-only
side channel no claim mentions and is not modelled. -/
def postCertificates (now : Nat) (cb0 : CircuitBreaker)
    (store : List (String × StoredCert)) (att_code : Option String)
    (findTeam : String → Option Team) (findEvent : String → Option Event)
    (renderOne : String → Except String (List Nat))
    (freshTokens : Nat → String) : IssuanceResult :=
  let cb := { cb0 with totalRequests := cb0.totalRequests + 1
                       lastAttemptTime := now }
  if cb.isOpen ∧ ¬ (now > cb.resetTime) then
    { response := IssueResponse.serviceUnavailable (breaker503RetryAfter cb.resetTime now)
      breaker := cb
      store := store }
  else
    let cb := if cb.isOpen then { cb with isOpen := false, isHalfOpen := true }
              else cb
    match att_code with
    | none => { response := IssueResponse.missingCode, breaker := cb, store := store }
    | some code =>
      if code = "" then
        { response := IssueResponse.missingCode, breaker := cb, store := store }
      else
        match findTeam code with
        | none => { response := IssueResponse.teamNotFound, breaker := cb, store := store }
        | some team =>
          match findEvent team.Competition with
          | none => { response := IssueResponse.eventNotFound, breaker := cb, store := store }
          | some ev =>
            if now ≤ ev.end_time then
              { response := IssueResponse.eventNotEnded, breaker := cb, store := store }
            else
              match generateTeamCertificateBuffers renderOne (some (teamMembers team)) with
              | Except.error _ =>
                  let cb := { cb with failureCount := cb.failureCount + 1
                                      totalFailures := cb.totalFailures + 1
                                      consecutiveFailures := cb.consecutiveFailures + 1 }
                  let cb :=
                    if cb.consecutiveFailures ≥ cb.consecutiveFailureThreshold then
                      { cb with isOpen := true, isHalfOpen := false
                                resetTime := now + cb.resetTimeout }
                    else if cb.failureCount ≥ cb.failureThreshold then
                      { cb with isOpen := true, isHalfOpen := false
                                resetTime := now + cb.resetTimeout }
                    else cb
                  { response := IssueResponse.serverError, breaker := cb, store := store }
              | Except.ok certs =>
                  let cb :=
                    if cb.isHalfOpen then
                      if cb.successCount + 1 ≥ cb.successThreshold then
                        { cb with isHalfOpen := false, failureCount := 0
                                  consecutiveFailures := 0, successCount := 0 }
                      else { cb with successCount := cb.successCount + 1 }
                    else cb
                  { response := IssueResponse.success (downloadDescriptors certs freshTokens)
                    breaker := cb
                    store := storeAllCerts store certs freshTokens now }

/-! ### Router composition (certificateRoutes.js lines 288, 508)

Both `router.post("/", rateLimiter, …)` and
`router.get("/download/:token", rateLimiter, …)` install the same
`rateLimiter` middleware, closing over the single module-level
`requestCounts` map.  The embedding makes that sharing structural: one
`rateMap` component consulted by the very same `rateLimiter` function on
both paths. -/

/-- The shared mutable module state of `certificateRoutes.js`. -/
structure ServerState where
  rateMap : List (String × RateRecord)
  breaker : CircuitBreaker
  store : List (String × StoredCert)
deriving DecidableEq, Repr

/-- A request hitting one of the two rate-limited certificate routes. -/
inductive ApiRequest where
  | post (att_code : Option String)
  | download (token : String)
deriving DecidableEq, Repr

/-- The observable response of the router for one request. -/
inductive ApiResponse where
  /-- 429 `"Too many requests, please try again later"` with `retryAfter`,
  from the shared `rateLimiter` middleware. -/
  | tooManyRequests (retryAfter : Nat)
  /-- Any response of the issuance handler. -/
  | issue (r : IssueResponse)
  /-- 404 `"Certificate not found or expired (Refresh page)"`. -/
  | fileNotFound
  /-- 200, the PDF buffer with its headers. -/
  | file (cert : StoredCert)
deriving DecidableEq, Repr

/-- Dispatch one request from `ip` at time `now`: run the shared
`rateLimiter` first; if admitted, run the matching handler.  The download
handler reads the store but never writes any shared state; the issuance
handler updates breaker and store. -/
def handleRequest (findTeam : String → Option Team)
    (findEvent : String → Option Event)
    (renderOne : String → Except String (List Nat))
    (freshTokens : Nat → String)
    (st : ServerState) (ip : String) (now : Nat) :
    ApiRequest → ApiResponse × ServerState
  | ApiRequest.post code =>
      match rateLimiter st.rateMap ip now with
      | (RateDecision.limited ra, m1) =>
          (ApiResponse.tooManyRequests ra, { st with rateMap := m1 })
      | (RateDecision.admitted, m1) =>
          let out := postCertificates now st.breaker st.store code findTeam
            findEvent renderOne freshTokens
          (ApiResponse.issue out.response,
            { rateMap := m1, breaker := out.breaker, store := out.store })
  | ApiRequest.download token =>
      match rateLimiter st.rateMap ip now with
      | (RateDecision.limited ra, m1) =>
          (ApiResponse.tooManyRequests ra, { st with rateMap := m1 })
      | (RateDecision.admitted, m1) =>
          match downloadCert st.store token with
          | none => (ApiResponse.fileNotFound, { st with rateMap := m1 })
          | some c => (ApiResponse.file c, { st with rateMap := m1 })

/-- Process a list of `(time, request)` pairs from one caller in order,
threading the shared state. -/
def runApiRequests (findTeam : String → Option Team)
    (findEvent : String → Option Event)
    (renderOne : String → Except String (List Nat))
    (freshTokens : Nat → String)
    (st : ServerState) (ip : String) :
    List (Nat × ApiRequest) → ServerState
  | [] => st
  | p :: rest =>
      runApiRequests findTeam findEvent renderOne freshTokens
        (handleRequest findTeam findEvent renderOne freshTokens st ip p.1 p.2).2
        ip rest

/-! ### Fixtures

Concrete collaborator instances used to drive the handler through
specific paths in the theorems below.  `fixtureTeam` deliberately has
`attendance := false` with an already-ended event: the pair exhibits the
missing eligibility check. -/

/-- A team whose attendance flag was never set. -/
def fixtureTeam : Team :=
  { att_code := "CC-12345678"
    Team_Name := "Team X"
    Competition := "Robotics"
    consumerNumber := "CN-002"
    Leader_name := "Alice"
    mem1_name := none
    mem2_name := none
    mem3_name := none
    mem4_name := none
    attendance := false }

/-- Directory lookup returning `fixtureTeam` for its code. -/
def fixtureFindTeam : String → Option Team := fun code =>
  if code = "CC-12345678" then some fixtureTeam else none

/-- An event that ended at time 0, so any `now ≥ 1` is past its end. -/
def fixtureEvent : Event :=
  { competitionName := "Robotics", start_time := 0, end_time := 0 }

/-- Event lookup returning `fixtureEvent` for the fixture competition. -/
def fixtureFindEvent : String → Option Event := fun name =>
  if name = "Robotics" then some fixtureEvent else none

/-- A renderer failing for every member. -/
def failRender : String → Except String (List Nat) := fun _ =>
  Except.error "PDF engine failure"

/-- A renderer succeeding for every member. -/
def okRender : String → Except String (List Nat) := fun _ =>
  Except.ok [37]

/-- A fixed token generator (token identity is irrelevant to the breaker
and eligibility claims). -/
def fixtureTokens : Nat → String := fun _ =>
  "0123456789abcdef0123456789abcdef"

/-- One admitted issuance request for the fixture team whose render
fails: drives the handler into the catch block. -/
def failingIssue (cb : CircuitBreaker) (store : List (String × StoredCert))
    (now : Nat) : IssuanceResult :=
  postCertificates now cb store (some "CC-12345678") fixtureFindTeam
    fixtureFindEvent failRender fixtureTokens

/-- One admitted issuance request for the fixture team whose render
succeeds: drives the handler into the success path. -/
def succeedingIssue (cb : CircuitBreaker) (store : List (String × StoredCert))
    (now : Nat) : IssuanceResult :=
  postCertificates now cb store (some "CC-12345678") fixtureFindTeam
    fixtureFindEvent okRender fixtureTokens

/-- The descriptor list the fixture issuance responds with. -/
def fixtureDescs : List DownloadDescriptor :=
  [{ memberName := "Alice"
     memberIndex := 0
     downloadUrl := "/api/certificates/download/0123456789abcdef0123456789abcdef" }]

/-- The store after the fixture issuance inserts Alice's certificate. -/
def fixtureStoreAfter (store : List (String × StoredCert)) (now : Nat) :
    List (String × StoredCert) :=
  jsMapSet store "0123456789abcdef0123456789abcdef"
    (mkStoredCert { name := "Alice", buffer := [37] } now)

/-- The breaker state reached from `initialCircuitBreaker` after `k`
failed admitted requests, the last at time `t` (for `k ≤ 4`, no trip
condition has fired yet). -/
def failedK (k t : Nat) : CircuitBreaker :=
  { initialCircuitBreaker with
      totalRequests := k
      lastAttemptTime := t
      failureCount := k
      totalFailures := k
      consecutiveFailures := k }

/-- The breaker state right after the fifth consecutive failure at time
`t` tripped the circuit open. -/
def trippedBreaker (t : Nat) : CircuitBreaker :=
  { initialCircuitBreaker with
      totalRequests := 5
      lastAttemptTime := t
      failureCount := 5
      totalFailures := 5
      consecutiveFailures := 5
      isOpen := true
      isHalfOpen := false
      resetTime := t + 60000 }

/-- The breaker bookkeeping a successful admitted (non-open) request
performs: bump `totalRequests`/`lastAttemptTime`; in half-open state also
count the success and close the breaker (resetting `failureCount`,
`consecutiveFailures`, `successCount`) once `successThreshold` is
reached (certificateRoutes.js lines 298-300 and 405-418). -/
def successUpdate (cb : CircuitBreaker) (now : Nat) : CircuitBreaker :=
  let cb1 := { cb with totalRequests := cb.totalRequests + 1
                       lastAttemptTime := now }
  if cb1.isHalfOpen then
    if cb1.successCount + 1 ≥ cb1.successThreshold then
      { cb1 with isHalfOpen := false, failureCount := 0
                 consecutiveFailures := 0, successCount := 0 }
    else { cb1 with successCount := cb1.successCount + 1 }
  else cb1

/-- Fold a list of failing admitted requests (at the given times) over
the shared breaker and store. -/
def afterFailures (cb : CircuitBreaker) (store : List (String × StoredCert)) :
    List Nat → CircuitBreaker × List (String × StoredCert)
  | [] => (cb, store)
  | t :: ts =>
      afterFailures (failingIssue cb store t).breaker
        (failingIssue cb store t).store ts

/-- Fold a list of succeeding admitted requests (at the given times) over
the shared breaker and store. -/
def afterTrials (cb : CircuitBreaker) (store : List (String × StoredCert)) :
    List Nat → CircuitBreaker × List (String × StoredCert)
  | [] => (cb, store)
  | t :: ts =>
      afterTrials (succeedingIssue cb store t).breaker
        (succeedingIssue cb store t).store ts

/-- A half-open breaker one success short of `successThreshold`, with
accumulated failure counters. -/
def halfOpenAtThreshold : CircuitBreaker :=
  { initialCircuitBreaker with
      isHalfOpen := true
      successCount := 2
      consecutiveFailures := 5
      failureCount := 10 }

/-- A stored certificate whose expiry (time 100) has passed. -/
def expiredCert : StoredCert :=
  { buffer := [1]
    name := "Alice"
    contentType := "application/pdf"
    filename := "Alice-Certificate.pdf"
    expiry := 100 }

/-- The message the promise rejects with when the attempt at the final
`retryCount` fails: the synchronous `catch` re-rejects the raw last
error, the `doc.on("error")` branch wraps it. -/
def finalErrMsg : AttemptResult → String
  | AttemptResult.ok _ => ""
  | AttemptResult.streamError m => streamFailMsg m
  | AttemptResult.syncError m => m

/-! ## Theorems -/

/-! ### Certificate store: sweep and download (C9, C2) -/

/-- Every entry surviving a sweep was in the store and is unexpired. -/
theorem mem_cleanupSweep {now : Nat} {store : List (String × StoredCert)}
    {e : String × StoredCert} (h : e ∈ cleanupSweep now store) :
    e ∈ store ∧ now ≤ e.2.expiry := by
  unfold cleanupSweep at h
  simp only at h
  have hkept : e ∈ store.filter fun x => !(now > x.2.expiry) := by
    by_cases hlen :
        (store.filter fun x => !(now > x.2.expiry)).length >
          MAX_CERTIFICATE_STORE_SIZE
    · rw [if_pos hlen] at h
      have hsorted := List.mem_of_mem_drop h
      exact (List.mem_insertionSort
        (fun a b : String × StoredCert => a.2.expiry ≤ b.2.expiry)).mp hsorted
    · rwa [if_neg hlen] at h
  have := List.mem_filter.mp hkept
  refine ⟨this.1, ?_⟩
  have hb := this.2
  simp only [Bool.not_eq_true', decide_eq_false_iff_not, not_lt] at hb
  exact hb

/-- C9: after any execution of the periodic sweep, the certificate store
holds at most `MAX_CERTIFICATE_STORE_SIZE` (1000) entries, and every
surviving entry is unexpired (`now ≤ expiry`): the sweep removes every
entry whose expiry has passed, then evicts the soonest-expiry entries
until at or under the cap. -/
theorem sweep_capacity_invariant (now : Nat)
    (store : List (String × StoredCert)) :
    (cleanupSweep now store).length ≤ MAX_CERTIFICATE_STORE_SIZE ∧
      ((cleanupSweep now store).all fun e => now ≤ e.2.expiry) = true := by
  constructor
  · unfold cleanupSweep
    simp only
    by_cases hlen :
        (store.filter fun x => !(now > x.2.expiry)).length >
          MAX_CERTIFICATE_STORE_SIZE
    · rw [if_pos hlen]
      rw [List.length_drop, List.length_insertionSort]
      omega
    · rw [if_neg hlen]
      omega
  · rw [List.all_eq_true]
    intro e he
    simpa using (mem_cleanupSweep he).2

/-- Closed instance of `sweep_capacity_invariant` at a concrete store. -/
theorem sweep_capacity_invariant_witness :
    (cleanupSweep 200
        [("tok", { buffer := [1], name := "Alice",
                   contentType := "application/pdf",
                   filename := "Alice-Certificate.pdf",
                   expiry := 100 : StoredCert })]).length ≤
      MAX_CERTIFICATE_STORE_SIZE :=
  (sweep_capacity_invariant 200
    [("tok", { buffer := [1], name := "Alice",
               contentType := "application/pdf",
               filename := "Alice-Certificate.pdf",
               expiry := 100 })]).1

/-- C2 counterexample: the claim says a download performed after the
token's expiry returns NotFound even if the sweep has not yet removed the
entry.  The download handler consults only `certificateStore.has(token)`
and never the clock, so for a store still containing a token whose expiry
(100) has passed — e.g. observed at time 200 — the handler serves the
certificate instead of returning 404. -/
theorem download_serves_expired_entry_before_sweep :
    expiredCert.expiry < 200 ∧
      downloadCert [("tok", expiredCert)] "tok" = some expiredCert := by
  constructor
  · decide
  · rfl

/-- C2 amended: the download path performs no lazy expiry check; a token
returns NotFound exactly when it is absent from the store, and expired
entries disappear only once a sweep has run.  Formally: if every entry
under `token` has expired by time `now`, then after the sweep at `now`
the download of `token` returns NotFound. -/
theorem download_expired_after_sweep_not_found (now : Nat)
    (store : List (String × StoredCert)) (token : String)
    (h : ∀ e ∈ store, e.1 = token → e.2.expiry < now) :
    downloadCert (cleanupSweep now store) token = none := by
  unfold downloadCert
  have hfind : (cleanupSweep now store).find? (fun e => e.1 == token) = none := by
    rw [List.find?_eq_none]
    intro e he
    have hmem := mem_cleanupSweep he
    simp only [beq_iff_eq]
    intro heq
    have := h e hmem.1 heq
    omega
  rw [hfind]

/-- Closed instance of `download_expired_after_sweep_not_found`: the same
store and time as the counterexample, after the sweep has run. -/
theorem download_expired_after_sweep_not_found_witness :
    downloadCert (cleanupSweep 200 [("tok", expiredCert)]) "tok" = none :=
  download_expired_after_sweep_not_found 200 [("tok", expiredCert)] "tok"
    (by decide)

/-! ### Renderer retry (C6) -/

/-- C6 counterexample: the claim says at most 3 attempts total with a
backoff delay between attempts.  With a stream-stage error on every
attempt, `generateCertificateBuffer` makes 4 attempts
(`retryCount` 0, 1, 2, 3 — the retry guard is `retryCount < 3` and the
initial call passes 0), and sleeps no backoff at all (the
`doc.on("error")` retry branch has no `setTimeout`). -/
theorem renderer_four_attempts_no_backoff :
    (generateCertificateBuffer (fun _ => AttemptResult.streamError "boom") 0).2.1.length = 4 ∧
      (generateCertificateBuffer (fun _ => AttemptResult.streamError "boom") 0).2.2 = [] := by
  constructor
  · rfl
  · rfl

/-- C6 amended: when every attempt fails, the renderer makes at most 4
attempts total (the initial attempt plus up to 3 retries, exactly
`retryCount` 0, 1, 2, 3), sleeps `500 · 2 ^ retryCount` ms before the
retry that follows a synchronous-stage failure (stream-stage failures
retry immediately), and after exhausting the retries rejects carrying
the last underlying error (raw for the synchronous path, wrapped in
`"Certificate generation failed after 3 attempts: …"` for the stream
path). -/
theorem renderer_retry_amended (outcome : Nat → AttemptResult)
    (h : ∀ n, (outcome n).isFailure = true) :
    (generateCertificateBuffer outcome 0).2.1 = [0, 1, 2, 3] ∧
      (generateCertificateBuffer outcome 0).1 =
        Except.error (finalErrMsg (outcome 3)) ∧
      (generateCertificateBuffer outcome 0).2.2 =
        [0, 1, 2].filterMap (fun k =>
          match outcome k with
          | AttemptResult.syncError _ => some (RETRY_BACKOFF_MS * 2 ^ k)
          | _ => none) := by
  have h0 := h 0
  have h1 := h 1
  have h2 := h 2
  have h3 := h 3
  cases e0 : outcome 0 <;> rw [e0] at h0 <;>
    cases e1 : outcome 1 <;> rw [e1] at h1 <;>
    cases e2 : outcome 2 <;> rw [e2] at h2 <;>
    cases e3 : outcome 3 <;> rw [e3] at h3 <;>
    simp only [AttemptResult.isFailure] at h0 h1 h2 h3 <;>
    try contradiction
  all_goals
    simp [generateCertificateBuffer, genCertAux, e0, e1, e2, e3,
      MAX_RETRIES, RETRY_BACKOFF_MS, finalErrMsg]

/-- Closed instance of `renderer_retry_amended`: every attempt fails
synchronously. -/
theorem renderer_retry_amended_witness :
    (generateCertificateBuffer (fun _ => AttemptResult.syncError "engine down") 0).2.1 = [0, 1, 2, 3] ∧
      (generateCertificateBuffer (fun _ => AttemptResult.syncError "engine down") 0).1 =
        Except.error (finalErrMsg (AttemptResult.syncError "engine down")) ∧
      (generateCertificateBuffer (fun _ => AttemptResult.syncError "engine down") 0).2.2 =
        [0, 1, 2].filterMap (fun k =>
          match (fun _ => AttemptResult.syncError "engine down" : Nat → AttemptResult) k with
          | AttemptResult.syncError _ => some (RETRY_BACKOFF_MS * 2 ^ k)
          | _ => none) :=
  renderer_retry_amended (fun _ => AttemptResult.syncError "engine down")
    (fun _ => rfl)

/-! ### Batch renderer (C7) -/

/-- Successes and failures partition the roster. -/
theorem renderSuccess_add_renderFails_length
    (renderOne : String → Except String (List Nat)) :
    ∀ ms : List String,
      (ms.filterMap (renderSuccess renderOne)).length +
        (ms.filter (renderFails renderOne)).length = ms.length := by
  intro ms
  induction ms with
  | nil => rfl
  | cons m rest ih =>
      cases hr : renderOne m with
      | ok b =>
          simp [List.filterMap_cons, List.filter_cons, renderSuccess,
            renderFails, hr, ih]
          omega
      | error e =>
          simp [List.filterMap_cons, List.filter_cons, renderSuccess,
            renderFails, hr, ih]
          omega

/-- C7: for a roster of `N ≥ 1` names in which exactly `K` renders fail,
`generateTeamCertificateBuffers` raises
`"Certificate generation failed for all team members"` iff `K = N`;
otherwise it returns exactly the `N − K` successful artifacts in roster
order without raising.  An empty (`some []`) or non-array (`none`)
roster returns the empty list, not an error. -/
theorem batch_renderer_partial_failure
    (renderOne : String → Except String (List Nat)) (ms : List String)
    (h : 1 ≤ ms.length) :
    generateTeamCertificateBuffers renderOne none = Except.ok [] ∧
    generateTeamCertificateBuffers renderOne (some []) = Except.ok [] ∧
    (generateTeamCertificateBuffers renderOne (some ms) =
        Except.error "Certificate generation failed for all team members" ↔
      (ms.filter (renderFails renderOne)).length = ms.length) ∧
    ((ms.filter (renderFails renderOne)).length < ms.length →
      generateTeamCertificateBuffers renderOne (some ms) =
          Except.ok (ms.filterMap (renderSuccess renderOne)) ∧
        (ms.filterMap (renderSuccess renderOne)).length =
          ms.length - (ms.filter (renderFails renderOne)).length) := by
  have hpart := renderSuccess_add_renderFails_length renderOne ms
  refine ⟨rfl, rfl, ?_, ?_⟩
  · simp only [generateTeamCertificateBuffers]
    have hne : ¬ ms.length = 0 := by omega
    rw [if_neg hne]
    by_cases hc : (ms.filter (renderFails renderOne)).length > 0 ∧
        (ms.filter (renderFails renderOne)).length = ms.length
    · rw [if_pos hc]
      simp [hc.2]
    · rw [if_neg hc]
      constructor
      · intro he
        exact absurd he (by simp)
      · intro hK
        exact absurd ⟨by omega, hK⟩ hc
  · intro hK
    simp only [generateTeamCertificateBuffers]
    have hne : ¬ ms.length = 0 := by omega
    rw [if_neg hne]
    have hc : ¬ ((ms.filter (renderFails renderOne)).length > 0 ∧
        (ms.filter (renderFails renderOne)).length = ms.length) := by
      intro hcc
      omega
    rw [if_neg hc]
    exact ⟨rfl, by omega⟩

/-- Closed instance of `batch_renderer_partial_failure`: a three-member
roster where only the second member's render fails. -/
theorem batch_renderer_partial_failure_witness :
    generateTeamCertificateBuffers
        (fun m => if m = "Bob" then Except.error "boom" else Except.ok [9])
        none = Except.ok [] ∧
    generateTeamCertificateBuffers
        (fun m => if m = "Bob" then Except.error "boom" else Except.ok [9])
        (some []) = Except.ok [] ∧
    (generateTeamCertificateBuffers
        (fun m => if m = "Bob" then Except.error "boom" else Except.ok [9])
        (some ["Alice", "Bob", "Carol"]) =
        Except.error "Certificate generation failed for all team members" ↔
      (["Alice", "Bob", "Carol"].filter
        (renderFails (fun m => if m = "Bob" then Except.error "boom" else Except.ok [9]))).length = 3) ∧
    ((["Alice", "Bob", "Carol"].filter
        (renderFails (fun m => if m = "Bob" then Except.error "boom" else Except.ok [9]))).length < 3 →
      generateTeamCertificateBuffers
          (fun m => if m = "Bob" then Except.error "boom" else Except.ok [9])
          (some ["Alice", "Bob", "Carol"]) =
          Except.ok (["Alice", "Bob", "Carol"].filterMap
            (renderSuccess (fun m => if m = "Bob" then Except.error "boom" else Except.ok [9]))) ∧
        (["Alice", "Bob", "Carol"].filterMap
          (renderSuccess (fun m => if m = "Bob" then Except.error "boom" else Except.ok [9]))).length =
          3 - (["Alice", "Bob", "Carol"].filter
            (renderFails (fun m => if m = "Bob" then Except.error "boom" else Except.ok [9]))).length) :=
  batch_renderer_partial_failure
    (fun m => if m = "Bob" then Except.error "boom" else Except.ok [9])
    ["Alice", "Bob", "Carol"] (by decide)

/-! ### Rate limiter (C8) -/

/-- A first request from an unknown caller creates its window record and
is admitted. -/
theorem rateLimiter_fresh (ip : String) (now : Nat) :
    rateLimiter [] ip now =
      (RateDecision.admitted,
        [(ip, { count := 1, resetAt := now + RATE_LIMIT_WINDOW })]) := by
  simp [rateLimiter, jsMapGet, jsMapSet, RATE_LIMIT_MAX]

/-- Within the window and under the quota: increment and admit. -/
theorem rateLimiter_under (ip : String) (now k r : Nat) (hw : ¬ r < now)
    (hk : k < RATE_LIMIT_MAX) :
    rateLimiter [(ip, { count := k, resetAt := r })] ip now =
      (RateDecision.admitted, [(ip, { count := k + 1, resetAt := r })]) := by
  simp [rateLimiter, jsMapGet, jsMapSet, hw, Nat.not_le.mpr hk]

/-- Within the window at the quota: reject with
`retryAfter = ceil((resetAt - now)/1000)`. -/
theorem rateLimiter_over (ip : String) (now k r : Nat) (hw : ¬ r < now)
    (hk : RATE_LIMIT_MAX ≤ k) :
    rateLimiter [(ip, { count := k, resetAt := r })] ip now =
      (RateDecision.limited ((r - now + 999) / 1000),
        [(ip, { count := k, resetAt := r })]) := by
  simp [rateLimiter, jsMapGet, jsMapSet, hw, hk]

/-- After the window has passed: reset the record and admit. -/
theorem rateLimiter_reset (ip : String) (now k r : Nat) (hw : r < now) :
    rateLimiter [(ip, { count := k, resetAt := r })] ip now =
      (RateDecision.admitted,
        [(ip, { count := 1, resetAt := now + RATE_LIMIT_WINDOW })]) := by
  simp [rateLimiter, jsMapGet, jsMapSet, hw, RATE_LIMIT_MAX]

/-- Feeding requests all inside the caller's current window and within
quota admits each one and adds their number to the count. -/
theorem runRateRequests_within (ip : String) :
    ∀ (ts : List Nat) (k r : Nat), (∀ t ∈ ts, t ≤ r) →
      k + ts.length ≤ RATE_LIMIT_MAX →
      runRateRequests [(ip, { count := k, resetAt := r })] ip ts =
        (List.replicate ts.length RateDecision.admitted,
          [(ip, { count := k + ts.length, resetAt := r })]) := by
  intro ts
  induction ts with
  | nil => intro k r _ _; rfl
  | cons t rest ih =>
      intro k r hts hquota
      have ht : t ≤ r := hts t (by simp)
      have hstep := rateLimiter_under ip t k r (by omega)
        (by simp at hquota; omega)
      have hrest := ih (k + 1) r (fun x hx => hts x (by simp [hx]))
        (by simp at hquota ⊢; omega)
      simp only [runRateRequests, hstep, hrest, List.length_cons,
        List.replicate_succ]
      have heq : k + 1 + rest.length = k + (rest.length + 1) := by omega
      rw [heq]

/-- C8: for one caller inside a single window, the first
`RATE_LIMIT_MAX` (20) requests are admitted, the 21st — arriving strictly
before the window's `resetAt` — is rejected with a positive `retryAfter`,
and once `resetAt` has passed the caller's next request is admitted
again. -/
theorem rate_limit_window (ip : String) (t0 : Nat) (ts : List Nat)
    (t21 tLater : Nat) (hlen : ts.length = RATE_LIMIT_MAX - 1)
    (hts : ∀ t ∈ ts, t ≤ t0 + RATE_LIMIT_WINDOW)
    (h21 : t21 < t0 + RATE_LIMIT_WINDOW)
    (hLater : t0 + RATE_LIMIT_WINDOW < tLater) :
    (rateLimiter [] ip t0).1 = RateDecision.admitted ∧
    (runRateRequests (rateLimiter [] ip t0).2 ip ts).1 =
      List.replicate ts.length RateDecision.admitted ∧
    (rateLimiter (runRateRequests (rateLimiter [] ip t0).2 ip ts).2 ip t21).1 =
      RateDecision.limited ((t0 + RATE_LIMIT_WINDOW - t21 + 999) / 1000) ∧
    0 < (t0 + RATE_LIMIT_WINDOW - t21 + 999) / 1000 ∧
    (rateLimiter
        (rateLimiter (runRateRequests (rateLimiter [] ip t0).2 ip ts).2 ip t21).2
        ip tLater).1 = RateDecision.admitted := by
  have hfresh := rateLimiter_fresh ip t0
  have hrun := runRateRequests_within ip ts 1 (t0 + RATE_LIMIT_WINDOW) hts
    (by simp [RATE_LIMIT_MAX] at hlen ⊢; omega)
  have hfull : 1 + ts.length = RATE_LIMIT_MAX := by
    simp [RATE_LIMIT_MAX] at hlen ⊢; omega
  have hover := rateLimiter_over ip t21 (1 + ts.length)
    (t0 + RATE_LIMIT_WINDOW) (by omega) (by omega)
  have hreset := rateLimiter_reset ip tLater (1 + ts.length)
    (t0 + RATE_LIMIT_WINDOW) (by omega)
  refine ⟨by rw [hfresh], ?_, ?_, ?_, ?_⟩
  · rw [hfresh, hrun]
  · rw [hfresh, hrun]
    simp only [hover]
  · have : 1000 ≤ t0 + RATE_LIMIT_WINDOW - t21 + 999 := by omega
    omega
  · rw [hfresh, hrun]
    simp only [hover, hreset]

/-- Closed instance of `rate_limit_window`: 21 immediate requests from
one address, then one more after the window. -/
theorem rate_limit_window_witness :
    (rateLimiter [] "203.0.113.7" 0).1 = RateDecision.admitted ∧
    (runRateRequests (rateLimiter [] "203.0.113.7" 0).2 "203.0.113.7"
        (List.replicate 19 0)).1 =
      List.replicate (List.replicate 19 (0 : Nat)).length RateDecision.admitted ∧
    (rateLimiter
        (runRateRequests (rateLimiter [] "203.0.113.7" 0).2 "203.0.113.7"
          (List.replicate 19 0)).2 "203.0.113.7" 0).1 =
      RateDecision.limited ((0 + RATE_LIMIT_WINDOW - 0 + 999) / 1000) ∧
    0 < (0 + RATE_LIMIT_WINDOW - 0 + 999) / 1000 ∧
    (rateLimiter
        (rateLimiter
          (runRateRequests (rateLimiter [] "203.0.113.7" 0).2 "203.0.113.7"
            (List.replicate 19 0)).2 "203.0.113.7" 0).2
        "203.0.113.7" 60001).1 = RateDecision.admitted :=
  rate_limit_window "203.0.113.7" 0 (List.replicate 19 0) 0 60001
    (by decide) (by decide) (by decide) (by decide)

/-! ### Issuance handler: step lemmas -/

/-- The open-circuit `retryAfter` is always positive (the source
substitutes 30 when the computed ceiling is not positive). -/
theorem breaker503RetryAfter_pos (resetTime now : Nat) :
    0 < breaker503RetryAfter resetTime now := by
  simp only [breaker503RetryAfter]
  split
  · omega
  · omega

/-- An open breaker whose `resetTime` has not passed rejects any request
with 503 before consulting the directory or the renderer: the response
and state are the same for every `att_code`, every directory content and
every renderer. -/
theorem postCertificates_open_rejects (cb : CircuitBreaker)
    (store : List (String × StoredCert)) (now : Nat) (code : Option String)
    (ft : String → Option Team) (fe : String → Option Event)
    (ro : String → Except String (List Nat)) (tok : Nat → String)
    (hopen : cb.isOpen = true) (hle : now ≤ cb.resetTime) :
    postCertificates now cb store code ft fe ro tok =
      { response := IssueResponse.serviceUnavailable
          (breaker503RetryAfter cb.resetTime now)
        breaker := { cb with totalRequests := cb.totalRequests + 1
                             lastAttemptTime := now }
        store := store } := by
  unfold postCertificates
  simp [hopen, Nat.not_lt.mpr hle]

/-- A failing admitted request on a pre-trip breaker state: counters
advance, no trip yet. -/
theorem fail_step_full (k t t' : Nat) (store : List (String × StoredCert))
    (hk : k + 1 < 5) (ht' : 1 ≤ t') :
    failingIssue (failedK k t) store t' =
      { response := IssueResponse.serverError
        breaker := failedK (k + 1) t'
        store := store } := by
  have hne : ¬ (t' ≤ fixtureEvent.end_time) := by
    simp [fixtureEvent]
    omega
  have hz : ¬ (t' = 0) := by omega
  have hcf : ¬ (k + 1 ≥ 5) := by omega
  have hfc : ¬ (k + 1 ≥ 10) := by omega
  simp [failingIssue, postCertificates, failedK, initialCircuitBreaker,
    fixtureFindTeam, fixtureFindEvent, fixtureTeam, fixtureEvent, teamMembers,
    appendTruthy, generateTeamCertificateBuffers, renderFails, renderSuccess,
    failRender, hne, hz, hcf, hfc]

/-- The fifth consecutive failure trips the breaker open with
`resetTime = now + resetTimeout`. -/
theorem trip_step_full (t t' : Nat) (store : List (String × StoredCert))
    (ht' : 1 ≤ t') :
    failingIssue (failedK 4 t) store t' =
      { response := IssueResponse.serverError
        breaker := trippedBreaker t'
        store := store } := by
  have hne : ¬ (t' ≤ fixtureEvent.end_time) := by
    simp [fixtureEvent]
    omega
  have hz : ¬ (t' = 0) := by omega
  simp [failingIssue, postCertificates, failedK, trippedBreaker,
    initialCircuitBreaker, fixtureFindTeam, fixtureFindEvent, fixtureTeam,
    fixtureEvent, teamMembers, appendTruthy, generateTeamCertificateBuffers,
    renderFails, renderSuccess, failRender, hne, hz]

/-- Breaker component of `fail_step_full`, stated for rewriting. -/
theorem fail_step_breaker (k t t' : Nat) (store : List (String × StoredCert))
    (hk : k + 1 < 5) (ht' : 1 ≤ t') :
    (failingIssue (failedK k t) store t').breaker = failedK (k + 1) t' := by
  rw [fail_step_full k t t' store hk ht']

/-- Store component of `fail_step_full`, stated for rewriting. -/
theorem fail_step_store (k t t' : Nat) (store : List (String × StoredCert))
    (hk : k + 1 < 5) (ht' : 1 ≤ t') :
    (failingIssue (failedK k t) store t').store = store := by
  rw [fail_step_full k t t' store hk ht']

/-- Breaker component of `trip_step_full`, stated for rewriting. -/
theorem trip_step_breaker (t t' : Nat) (store : List (String × StoredCert))
    (ht' : 1 ≤ t') :
    (failingIssue (failedK 4 t) store t').breaker = trippedBreaker t' := by
  rw [trip_step_full t t' store ht']

/-- Store component of `trip_step_full`, stated for rewriting. -/
theorem trip_step_store (t t' : Nat) (store : List (String × StoredCert))
    (ht' : 1 ≤ t') :
    (failingIssue (failedK 4 t) store t').store = store := by
  rw [trip_step_full t t' store ht']

/-- A succeeding admitted request on a non-open breaker: responds 200
with Alice's descriptor, stores her certificate, and performs exactly the
`successUpdate` bookkeeping on the breaker. -/
theorem success_step_full (cb : CircuitBreaker)
    (store : List (String × StoredCert)) (now : Nat)
    (hopen : cb.isOpen = false) (hnow : 1 ≤ now) :
    succeedingIssue cb store now =
      { response := IssueResponse.success fixtureDescs
        breaker := successUpdate cb now
        store := fixtureStoreAfter store now } := by
  have hne : ¬ (now ≤ fixtureEvent.end_time) := by
    simp [fixtureEvent]
    omega
  have hz : ¬ (now = 0) := by omega
  simp [succeedingIssue, postCertificates, successUpdate, fixtureFindTeam,
    fixtureFindEvent, fixtureTeam, fixtureEvent, teamMembers, appendTruthy,
    generateTeamCertificateBuffers, renderFails, renderSuccess, okRender,
    hopen, hne, hz, fixtureDescs, fixtureStoreAfter, downloadDescriptors,
    storeAllCerts, mkStoredCert, hyphenateName, hyphenAux, fixtureTokens]

/-- A succeeding request arriving on an open breaker whose `resetTime`
has passed: admitted as the half-open trial, then the same bookkeeping as
`success_step_full` on the half-open state. -/
theorem success_step_open (cb : CircuitBreaker)
    (store : List (String × StoredCert)) (now : Nat)
    (hopen : cb.isOpen = true) (hreset : cb.resetTime < now) (hnow : 1 ≤ now) :
    succeedingIssue cb store now =
      { response := IssueResponse.success fixtureDescs
        breaker := successUpdate { cb with isOpen := false, isHalfOpen := true } now
        store := fixtureStoreAfter store now } := by
  have hne : ¬ (now ≤ fixtureEvent.end_time) := by
    simp [fixtureEvent]
    omega
  have hz : ¬ (now = 0) := by omega
  simp [succeedingIssue, postCertificates, successUpdate, fixtureFindTeam,
    fixtureFindEvent, fixtureTeam, fixtureEvent, teamMembers, appendTruthy,
    generateTeamCertificateBuffers, renderFails, renderSuccess, okRender,
    hopen, hreset, hne, hz, fixtureDescs, fixtureStoreAfter, downloadDescriptors,
    storeAllCerts, mkStoredCert, hyphenateName, hyphenAux, fixtureTokens]

/-! ### Circuit breaker claims (C3, C4, C5) and eligibility (C1) -/

/-- C3: starting from the server's initial breaker, five consecutive
failed admitted issuance requests leave the breaker open
(`isOpen = true`, `isHalfOpen = false`) with
`resetTime = t5 + resetTimeout`, and any next request arriving at
`t6 ≤ resetTime` is rejected with a positive-`retryAfter` 503 — for
every `att_code`, directory content and renderer, and without touching
the certificate store. -/
theorem breaker_trips_after_five_consecutive_failures
    (t1 t2 t3 t4 t5 t6 : Nat) (store : List (String × StoredCert))
    (h1 : 1 ≤ t1) (h2 : 1 ≤ t2) (h3 : 1 ≤ t3) (h4 : 1 ≤ t4) (h5 : 1 ≤ t5)
    (h6 : t6 ≤ t5 + initialCircuitBreaker.resetTimeout) :
    (afterFailures initialCircuitBreaker store [t1, t2, t3, t4, t5]).1 =
        trippedBreaker t5 ∧
    (trippedBreaker t5).isOpen = true ∧
    (trippedBreaker t5).isHalfOpen = false ∧
    (trippedBreaker t5).resetTime = t5 + initialCircuitBreaker.resetTimeout ∧
    (∀ (code : Option String) (ft : String → Option Team)
        (fe : String → Option Event) (ro : String → Except String (List Nat))
        (tok : Nat → String),
      postCertificates t6
          (afterFailures initialCircuitBreaker store [t1, t2, t3, t4, t5]).1
          (afterFailures initialCircuitBreaker store [t1, t2, t3, t4, t5]).2
          code ft fe ro tok =
        { response := IssueResponse.serviceUnavailable
            (breaker503RetryAfter (t5 + initialCircuitBreaker.resetTimeout) t6)
          breaker := { trippedBreaker t5 with
              totalRequests := (trippedBreaker t5).totalRequests + 1
              lastAttemptTime := t6 }
          store := store } ∧
      0 < breaker503RetryAfter (t5 + initialCircuitBreaker.resetTimeout) t6) := by
  have hstart : initialCircuitBreaker = failedK 0 0 := rfl
  have hchain : afterFailures initialCircuitBreaker store [t1, t2, t3, t4, t5] =
      (trippedBreaker t5, store) := by
    rw [hstart]
    simp only [afterFailures]
    rw [fail_step_breaker 0 0 t1 store (by omega) h1,
      fail_step_store 0 0 t1 store (by omega) h1,
      fail_step_breaker 1 t1 t2 store (by omega) h2,
      fail_step_store 1 t1 t2 store (by omega) h2,
      fail_step_breaker 2 t2 t3 store (by omega) h3,
      fail_step_store 2 t2 t3 store (by omega) h3,
      fail_step_breaker 3 t3 t4 store (by omega) h4,
      fail_step_store 3 t3 t4 store (by omega) h4,
      trip_step_breaker t4 t5 store h5,
      trip_step_store t4 t5 store h5]
  refine ⟨by rw [hchain], rfl, rfl, rfl, ?_⟩
  intro code ft fe ro tok
  rw [hchain]
  refine ⟨?_, breaker503RetryAfter_pos _ _⟩
  exact postCertificates_open_rejects (trippedBreaker t5) store t6 code ft fe
    ro tok rfl (by simp [trippedBreaker, initialCircuitBreaker] at h6 ⊢; omega)

/-- Closed instance of `breaker_trips_after_five_consecutive_failures`:
five failures at time 1, a sixth request at time 2. -/
theorem breaker_trips_witness :
    (afterFailures initialCircuitBreaker [] [1, 1, 1, 1, 1]).1 =
        trippedBreaker 1 ∧
    (trippedBreaker 1).isOpen = true ∧
    (trippedBreaker 1).isHalfOpen = false ∧
    (trippedBreaker 1).resetTime = 1 + initialCircuitBreaker.resetTimeout ∧
    (postCertificates 2 (afterFailures initialCircuitBreaker [] [1, 1, 1, 1, 1]).1
          (afterFailures initialCircuitBreaker [] [1, 1, 1, 1, 1]).2
          (some "CC-12345678") fixtureFindTeam fixtureFindEvent okRender
          fixtureTokens =
        { response := IssueResponse.serviceUnavailable
            (breaker503RetryAfter (1 + initialCircuitBreaker.resetTimeout) 2)
          breaker := { trippedBreaker 1 with
              totalRequests := (trippedBreaker 1).totalRequests + 1
              lastAttemptTime := 2 }
          store := [] } ∧
      0 < breaker503RetryAfter (1 + initialCircuitBreaker.resetTimeout) 2) := by
  have h := breaker_trips_after_five_consecutive_failures 1 1 1 1 1 2 []
    (by decide) (by decide) (by decide) (by decide) (by decide) (by decide)
  exact ⟨h.1, h.2.1, h.2.2.1, h.2.2.2.1,
    h.2.2.2.2 (some "CC-12345678") fixtureFindTeam fixtureFindEvent okRender
      fixtureTokens⟩

/-- C4: with the breaker open, `successCount = 0` and
`successThreshold = 3` (the server's value), a request arriving after
`resetTime` is admitted as the half-open trial (`isOpen` cleared,
`isHalfOpen` set, a 200 response) instead of being rejected; after the
third consecutive successful trial the breaker is closed with
`failureCount`, `consecutiveFailures` and `successCount` all 0 and
`isHalfOpen` cleared. -/
theorem breaker_halfopen_recovery (cb : CircuitBreaker)
    (store : List (String × StoredCert)) (t1 t2 t3 : Nat)
    (hopen : cb.isOpen = true) (hho : cb.isHalfOpen = false)
    (hsc : cb.successCount = 0) (hst : cb.successThreshold = 3)
    (hreset : cb.resetTime < t1) (h1 : 1 ≤ t1) (h2 : 1 ≤ t2) (h3 : 1 ≤ t3) :
    (succeedingIssue cb store t1).response = IssueResponse.success fixtureDescs ∧
    (succeedingIssue cb store t1).breaker.isOpen = false ∧
    (succeedingIssue cb store t1).breaker.isHalfOpen = true ∧
    (succeedingIssue cb store t1).breaker.successCount = 1 ∧
    (afterTrials cb store [t1, t2, t3]).1.isOpen = false ∧
    (afterTrials cb store [t1, t2, t3]).1.isHalfOpen = false ∧
    (afterTrials cb store [t1, t2, t3]).1.failureCount = 0 ∧
    (afterTrials cb store [t1, t2, t3]).1.consecutiveFailures = 0 ∧
    (afterTrials cb store [t1, t2, t3]).1.successCount = 0 := by
  have e1 := success_step_open cb store t1 hopen hreset h1
  have b1 : successUpdate { cb with isOpen := false, isHalfOpen := true } t1 =
      { cb with isOpen := false, isHalfOpen := true
                totalRequests := cb.totalRequests + 1
                lastAttemptTime := t1, successCount := 1 } := by
    simp [successUpdate, hsc, hst]
  rw [b1] at e1
  have e2 := success_step_full
    { cb with isOpen := false, isHalfOpen := true
              totalRequests := cb.totalRequests + 1
              lastAttemptTime := t1, successCount := 1 }
    (fixtureStoreAfter store t1) t2 rfl h2
  have b2 : successUpdate
      { cb with isOpen := false, isHalfOpen := true
                totalRequests := cb.totalRequests + 1
                lastAttemptTime := t1, successCount := 1 } t2 =
      { cb with isOpen := false, isHalfOpen := true
                totalRequests := cb.totalRequests + 1 + 1
                lastAttemptTime := t2, successCount := 2 } := by
    simp [successUpdate, hst]
  rw [b2] at e2
  have e3 := success_step_full
    { cb with isOpen := false, isHalfOpen := true
              totalRequests := cb.totalRequests + 1 + 1
              lastAttemptTime := t2, successCount := 2 }
    (fixtureStoreAfter (fixtureStoreAfter store t1) t2) t3 rfl h3
  have b3 : successUpdate
      { cb with isOpen := false, isHalfOpen := true
                totalRequests := cb.totalRequests + 1 + 1
                lastAttemptTime := t2, successCount := 2 } t3 =
      { cb with isOpen := false, isHalfOpen := false
                totalRequests := cb.totalRequests + 1 + 1 + 1
                lastAttemptTime := t3, successCount := 0
                failureCount := 0, consecutiveFailures := 0 } := by
    simp [successUpdate, hst]
  rw [b3] at e3
  have hchain : (afterTrials cb store [t1, t2, t3]).1 =
      { cb with isOpen := false, isHalfOpen := false
                totalRequests := cb.totalRequests + 1 + 1 + 1
                lastAttemptTime := t3, successCount := 0
                failureCount := 0, consecutiveFailures := 0 } := by
    simp only [afterTrials]
    rw [e1]
    simp only
    rw [e2]
    simp only
    rw [e3]
  rw [e1, hchain]
  exact ⟨rfl, rfl, rfl, rfl, rfl, rfl, rfl, rfl, rfl⟩

/-- Closed instance of `breaker_halfopen_recovery`: a breaker that
tripped at time 1 recovers over three successful trials. -/
theorem breaker_halfopen_recovery_witness :
    (succeedingIssue (trippedBreaker 1) [] 60002).response =
        IssueResponse.success fixtureDescs ∧
    (succeedingIssue (trippedBreaker 1) [] 60002).breaker.isOpen = false ∧
    (succeedingIssue (trippedBreaker 1) [] 60002).breaker.isHalfOpen = true ∧
    (succeedingIssue (trippedBreaker 1) [] 60002).breaker.successCount = 1 ∧
    (afterTrials (trippedBreaker 1) [] [60002, 60003, 60004]).1.isOpen = false ∧
    (afterTrials (trippedBreaker 1) [] [60002, 60003, 60004]).1.isHalfOpen = false ∧
    (afterTrials (trippedBreaker 1) [] [60002, 60003, 60004]).1.failureCount = 0 ∧
    (afterTrials (trippedBreaker 1) [] [60002, 60003, 60004]).1.consecutiveFailures = 0 ∧
    (afterTrials (trippedBreaker 1) [] [60002, 60003, 60004]).1.successCount = 0 :=
  breaker_halfopen_recovery (trippedBreaker 1) [] 60002 60003 60004
    (by decide) (by decide) (by decide) (by decide) (by decide) (by decide)
    (by decide) (by decide)

/-- C5 counterexample: the claim says every successful admitted request
leaves `consecutiveFailures = 0`.  After two failed requests (breaker
still closed, `consecutiveFailures = 2`), a successful request responds
200 but leaves `consecutiveFailures` at 2: the success path only resets
it when it closes the breaker out of half-open state. -/
theorem success_does_not_reset_consecutive_failures :
    (succeedingIssue (afterFailures initialCircuitBreaker [] [1, 1]).1
        (afterFailures initialCircuitBreaker [] [1, 1]).2 1).response =
      IssueResponse.success fixtureDescs ∧
    (succeedingIssue (afterFailures initialCircuitBreaker [] [1, 1]).1
        (afterFailures initialCircuitBreaker [] [1, 1]).2 1).breaker.consecutiveFailures = 2 := by
  constructor
  · rfl
  · rfl

/-- C5 amended: a successful admitted request leaves
`consecutiveFailures` and `failureCount` unchanged, except when it is the
half-open trial that reaches `successThreshold` and closes the breaker,
in which case both are reset to 0. -/
theorem success_counter_bookkeeping (cb : CircuitBreaker)
    (store : List (String × StoredCert)) (now : Nat)
    (hopen : cb.isOpen = false) (hnow : 1 ≤ now) :
    (cb.isHalfOpen = false →
      (succeedingIssue cb store now).breaker.consecutiveFailures =
          cb.consecutiveFailures ∧
        (succeedingIssue cb store now).breaker.failureCount = cb.failureCount) ∧
    (cb.isHalfOpen = true → cb.successCount + 1 < cb.successThreshold →
      (succeedingIssue cb store now).breaker.consecutiveFailures =
          cb.consecutiveFailures ∧
        (succeedingIssue cb store now).breaker.failureCount = cb.failureCount) ∧
    (cb.isHalfOpen = true → cb.successThreshold ≤ cb.successCount + 1 →
      (succeedingIssue cb store now).breaker.consecutiveFailures = 0 ∧
        (succeedingIssue cb store now).breaker.failureCount = 0) := by
  rw [success_step_full cb store now hopen hnow]
  refine ⟨?_, ?_, ?_⟩
  · intro hho
    simp [successUpdate, hho]
  · intro hho hlt
    have hcond : ¬ (cb.successCount + 1 ≥ cb.successThreshold) := by omega
    simp [successUpdate, hho, hcond]
  · intro hho hge
    have hcond : cb.successCount + 1 ≥ cb.successThreshold := hge
    simp [successUpdate, hho, hcond]

/-- Closed instance of `success_counter_bookkeeping`: a half-open breaker
one success away from closing. -/
theorem success_counter_bookkeeping_witness :
    (halfOpenAtThreshold.isHalfOpen = false →
      (succeedingIssue halfOpenAtThreshold [] 1).breaker.consecutiveFailures =
          halfOpenAtThreshold.consecutiveFailures ∧
        (succeedingIssue halfOpenAtThreshold [] 1).breaker.failureCount =
          halfOpenAtThreshold.failureCount) ∧
    (halfOpenAtThreshold.isHalfOpen = true →
      halfOpenAtThreshold.successCount + 1 < halfOpenAtThreshold.successThreshold →
      (succeedingIssue halfOpenAtThreshold [] 1).breaker.consecutiveFailures =
          halfOpenAtThreshold.consecutiveFailures ∧
        (succeedingIssue halfOpenAtThreshold [] 1).breaker.failureCount =
          halfOpenAtThreshold.failureCount) ∧
    (halfOpenAtThreshold.isHalfOpen = true →
      halfOpenAtThreshold.successThreshold ≤ halfOpenAtThreshold.successCount + 1 →
      (succeedingIssue halfOpenAtThreshold [] 1).breaker.consecutiveFailures = 0 ∧
        (succeedingIssue halfOpenAtThreshold [] 1).breaker.failureCount = 0) :=
  success_counter_bookkeeping halfOpenAtThreshold [] 1 (by decide) (by decide)

/-- C1 (code bug): `fixtureTeam` has `attendance = false` and its event
has ended, yet the issuance request responds 200 and stores Alice's
certificate — the handler's attendance-flag check (certificateRoutes.js
lines 346-357) is commented out, while the repository's own test suite
(certificateRoutes.test.js, "should return 400 if attendance was not
marked") expects a 400 rejection for exactly this input. -/
theorem issuance_ignores_unmarked_attendance :
    fixtureTeam.attendance = false ∧
    (succeedingIssue initialCircuitBreaker [] 1).response =
      IssueResponse.success fixtureDescs ∧
    (succeedingIssue initialCircuitBreaker [] 1).store =
      [("0123456789abcdef0123456789abcdef",
        mkStoredCert { name := "Alice", buffer := [37] } 1)] := by
  refine ⟨rfl, rfl, rfl⟩

/-! ### Shared rate limiter across routes (C10) -/

/-- Every route updates the shared `requestCounts` exactly as the
`rateLimiter` middleware dictates, regardless of the request kind and of
what the handler then does. -/
theorem handleRequest_rateMap (ft : String → Option Team)
    (fe : String → Option Event) (ro : String → Except String (List Nat))
    (tokgen : Nat → String) (st : ServerState) (ip : String) (now : Nat)
    (rq : ApiRequest) :
    ((handleRequest ft fe ro tokgen st ip now rq).2).rateMap =
      (rateLimiter st.rateMap ip now).2 := by
  cases rq with
  | post code =>
      rcases hr : rateLimiter st.rateMap ip now with ⟨d, m1⟩
      cases d <;> simp [handleRequest, hr]
  | download token =>
      rcases hr : rateLimiter st.rateMap ip now with ⟨d, m1⟩
      cases d with
      | admitted =>
          cases hd : downloadCert st.store token <;>
            simp [handleRequest, hr, hd]
      | limited ra => simp [handleRequest, hr]

/-- Running any requests of any kinds from one caller inside its window
and within quota adds their number to the shared counter. -/
theorem runApiRequests_rateMap (ft : String → Option Team)
    (fe : String → Option Event) (ro : String → Except String (List Nat))
    (tokgen : Nat → String) (ip : String) :
    ∀ (trs : List (Nat × ApiRequest)) (st : ServerState) (k r : Nat),
      st.rateMap = [(ip, { count := k, resetAt := r })] →
      (∀ p ∈ trs, p.1 ≤ r) → k + trs.length ≤ RATE_LIMIT_MAX →
      (runApiRequests ft fe ro tokgen st ip trs).rateMap =
        [(ip, { count := k + trs.length, resetAt := r })] := by
  intro trs
  induction trs with
  | nil =>
      intro st k r hst _ _
      simpa [runApiRequests] using hst
  | cons p rest ih =>
      intro st k r hst hts hquota
      have hstep : ((handleRequest ft fe ro tokgen st ip p.1 p.2).2).rateMap =
          [(ip, { count := k + 1, resetAt := r })] := by
        rw [handleRequest_rateMap, hst,
          rateLimiter_under ip p.1 k r
            (by have := hts p (by simp); omega)
            (by simp at hquota; omega)]
      have hrest := ih (handleRequest ft fe ro tokgen st ip p.1 p.2).2 (k + 1) r
        hstep (fun q hq => hts q (by simp [hq])) (by simp at hquota ⊢; omega)
      simp only [runApiRequests]
      rw [hrest]
      have heq : k + 1 + rest.length = k + (rest.length + 1) := by omega
      rw [heq]
      rfl

/-- C10: `GET /certificates/download/:token` runs the same `rateLimiter`
over the same `requestCounts` map as `POST /certificates`.  After any 20
requests (of either kind) from one caller inside a window, the caller's
next download — still inside the window, with a token that is present
and unexpired in the store — is rejected with 429 and a positive
`retryAfter` instead of being served. -/
theorem download_shares_rate_limiter (ft : String → Option Team)
    (fe : String → Option Event) (ro : String → Except String (List Nat))
    (tokgen : Nat → String) (ip : String) (b0 : CircuitBreaker)
    (s0 : List (String × StoredCert)) (t0 : Nat) (r0 : ApiRequest)
    (rest : List (Nat × ApiRequest)) (t21 : Nat) (token : String)
    (cert : StoredCert)
    (hlen : rest.length = RATE_LIMIT_MAX - 1)
    (hrest : ∀ p ∈ rest, p.1 ≤ t0 + RATE_LIMIT_WINDOW)
    (h21 : t21 < t0 + RATE_LIMIT_WINDOW)
    (hvalid : downloadCert
        (runApiRequests ft fe ro tokgen
          { rateMap := [], breaker := b0, store := s0 } ip
          ((t0, r0) :: rest)).store token = some cert)
    (hunexpired : t21 ≤ cert.expiry) :
    (handleRequest ft fe ro tokgen
        (runApiRequests ft fe ro tokgen
          { rateMap := [], breaker := b0, store := s0 } ip ((t0, r0) :: rest))
        ip t21 (ApiRequest.download token)).1 =
      ApiResponse.tooManyRequests ((t0 + RATE_LIMIT_WINDOW - t21 + 999) / 1000) ∧
    0 < (t0 + RATE_LIMIT_WINDOW - t21 + 999) / 1000 := by
  have hfull : 1 + rest.length = RATE_LIMIT_MAX := by
    simp [RATE_LIMIT_MAX] at hlen ⊢
    omega
  have h1map : ((handleRequest ft fe ro tokgen
      { rateMap := [], breaker := b0, store := s0 } ip t0 r0).2).rateMap =
      [(ip, { count := 1, resetAt := t0 + RATE_LIMIT_WINDOW })] := by
    rw [handleRequest_rateMap]
    simp only
    rw [rateLimiter_fresh]
  have hmap : (runApiRequests ft fe ro tokgen
      { rateMap := [], breaker := b0, store := s0 } ip ((t0, r0) :: rest)).rateMap =
      [(ip, { count := 1 + rest.length, resetAt := t0 + RATE_LIMIT_WINDOW })] := by
    simp only [runApiRequests]
    exact runApiRequests_rateMap ft fe ro tokgen ip rest _ 1
      (t0 + RATE_LIMIT_WINDOW) h1map hrest (by omega)
  have hlim := rateLimiter_over ip t21 (1 + rest.length)
    (t0 + RATE_LIMIT_WINDOW) (by omega) (by omega)
  constructor
  · simp [handleRequest, hmap, hlim]
  · have hge : 1000 ≤ t0 + RATE_LIMIT_WINDOW - t21 + 999 := by
      have : 0 < RATE_LIMIT_WINDOW := by decide
      omega
    omega

set_option maxRecDepth 4096 in
/-- Closed instance of `download_shares_rate_limiter`: 20 downloads of an
unknown token exhaust the shared window; the 21st request — a download of
a token validly stored and far from expiry — gets 429. -/
theorem download_shares_rate_limiter_witness :
    (handleRequest fixtureFindTeam fixtureFindEvent okRender fixtureTokens
        (runApiRequests fixtureFindTeam fixtureFindEvent okRender fixtureTokens
          { rateMap := []
            breaker := initialCircuitBreaker
            store := [("tok", mkStoredCert { name := "Alice", buffer := [37] } 0)] }
          "198.51.100.9"
          ((0, ApiRequest.download "zz") :: List.replicate 19 (0, ApiRequest.download "zz")))
        "198.51.100.9" 0 (ApiRequest.download "tok")).1 =
      ApiResponse.tooManyRequests ((0 + RATE_LIMIT_WINDOW - 0 + 999) / 1000) ∧
    0 < (0 + RATE_LIMIT_WINDOW - 0 + 999) / 1000 :=
  download_shares_rate_limiter fixtureFindTeam fixtureFindEvent okRender
    fixtureTokens "198.51.100.9" initialCircuitBreaker
    [("tok", mkStoredCert { name := "Alice", buffer := [37] } 0)] 0
    (ApiRequest.download "zz") (List.replicate 19 (0, ApiRequest.download "zz"))
    0 "tok" (mkStoredCert { name := "Alice", buffer := [37] } 0)
    (by decide) (by decide) (by decide) (by decide) (by decide)

end CodersCup
